import Mathlib

/-!
Shallow embedding of the job-oriented web-extraction engine
(`src/WebScrapper.py`): the data model (`ScrapeConfig`, records), the
value-extraction and container-scoping logic of `StaticScraper.scrape`
and `DynamicScraper.scrape`, the retry/backoff loop of
`BaseScraper.retry_scrape`, the three `DataExporter` sinks, and the
job registry / dispatch of `WebScraperScheduler`.

The external capabilities (HTTP fetch, DOM parsing/query, pandas/json/sqlite
serialization, wall-clock time) are modelled as explicit inputs/outputs:
a parsed page is a `Soup` mapping selector strings to matched elements,
the scrape performed at each retry attempt is an oracle
`Nat → Except String α`, and an export is recorded as the write effect
handed to the external library.
-/

/-- Configuration for a scraping job (dataclass `ScrapeConfig`,
`src/WebScrapper.py` lines 34-46), with the source's defaults. -/
structure ScrapeConfig where
  name : String
  url : String
  scrape_type : String
  /-- `selectors : Dict[str, str]`; a Python dict is an insertion-ordered
  mapping with unique keys, modelled as an association list. -/
  selectors : List (String × String)
  schedule_interval : String
  output_format : String
  max_retries : Nat := 3
  timeout : Nat := 30
  headers : Option (List (String × String)) := none
  wait_for_element : Option String := none
  deriving DecidableEq

/-- A DOM element as the scrapers observe it: its attributes
(`element.get(name)` / `element.get_attribute(name)` returns the value or
`None`) and its text content. -/
structure Element where
  attrs : List (String × String)
  text : String
  deriving DecidableEq

/-- `element.get(name)` / `element.get_attribute(name)`: the attribute's
value, or `none` when the attribute is absent. -/
def Element.get (e : Element) (attr : String) : Option String :=
  e.attrs.lookup attr

/-- One container element matched by the container selector.  Its
`elems` association records, for each selector string, the first element
that selector resolves to *within this container*
(`container.select_one(selector)` / `container.find_element(...)`);
a selector absent from the list resolves to nothing in this container. -/
structure Container where
  elems : List (String × Element)
  deriving DecidableEq

/-- The parsed page as the external DOM-query capability answers it:
for each selector string, the list of elements the whole document matches
(`soup.select(sel)` / `driver.find_elements(By.CSS_SELECTOR, sel)`). -/
structure Soup where
  matched : List (String × List Container)
  deriving DecidableEq

/-- `soup.select(sel)`: all containers the document matches for `sel`
(an unknown selector matches nothing). -/
def Soup.select (s : Soup) (sel : String) : List Container :=
  (s.matched.lookup sel).getD []

/-- One extracted record (the dict `item`): the two provenance stamps
written first (`item['scraped_at']`, `item['url']`, lines 94-95/167-168)
and then the per-field values, where `none` is Python `None`. -/
structure Record where
  scraped_at : String
  url : String
  fields : List (String × Option String)
  deriving DecidableEq

/-- Python truthiness of `element.get(...)`: `None` and the empty string
are falsy, any non-empty string is truthy. -/
def truthy : Option String → Bool
  | none => false
  | some s => !(s == "")

/-- Python `str.strip()` (also bs4 `get_text(strip=True)` on a text
content): the string with leading and trailing whitespace removed. -/
def strip (s : String) : String :=
  ⟨((s.data.dropWhile Char.isWhitespace).reverse.dropWhile Char.isWhitespace).reverse⟩

/-- The value-extraction priority shared by both scrapers
(lines 104-110 and 178-184): the `href` attribute if truthy, else the
`src` attribute if truthy, else the text content stripped of surrounding
whitespace (`get_text(strip=True)` / `.text.strip()`). -/
def extract_value (e : Element) : String :=
  if truthy (e.get "href") then (e.get "href").getD ""
  else if truthy (e.get "src") then (e.get "src").getD ""
  else strip e.text

/-- `StaticScraper`: `element = container.select_one(selector)` followed by
`item[field] = ...` (lines 102-112): an unmatched selector stores `None`,
a matched element stores the extracted value. -/
def resolve_static (c : Container) (selector : String) : Option String :=
  match c.elems.lookup selector with
  | some e => some (extract_value e)
  | none => none

/-- `DynamicScraper`: `container.find_element(By.CSS_SELECTOR, selector)`
(line 176) returns the element or raises `NoSuchElementException`. -/
def find_element (c : Container) (selector : String) : Except String Element :=
  match c.elems.lookup selector with
  | some e => .ok e
  | none => .error "NoSuchElementException"

/-- `DynamicScraper`'s per-field body (lines 175-186): any exception from
the element lookup is caught and the field stored as `None`. -/
def resolve_dynamic (c : Container) (selector : String) : Option String :=
  match find_element c selector with
  | .ok e => some (extract_value e)
  | .error _ => none

/-- `StaticScraper.scrape` after the fetch and parse (lines 85-117):
`container_selector = list(self.config.selectors.keys())[0]` (an empty
selector dict raises `IndexError`), `containers = soup.select(container_selector)`,
and for each container one record stamped with the timestamp and the URL,
whose fields run over the selector items skipping `field == container_selector`. -/
def StaticScraper.scrape (cfg : ScrapeConfig) (soup : Soup) (now : String) :
    Except String (List Record) :=
  match cfg.selectors with
  | [] => .error "IndexError: list index out of range"
  | (container_selector, _) :: _ =>
    .ok ((soup.select container_selector).map (fun c =>
      { scraped_at := now
        url := cfg.url
        fields := (cfg.selectors.filter (fun p => p.1 != container_selector)).map
          (fun p => (p.1, resolve_static c p.2)) }))

/-- `DynamicScraper.scrape` after navigation and the optional element wait
(lines 159-191): same container enumeration by the first selector key,
but each field lookup may raise and is caught per field. -/
def DynamicScraper.scrape (cfg : ScrapeConfig) (soup : Soup) (now : String) :
    Except String (List Record) :=
  match cfg.selectors with
  | [] => .error "IndexError: list index out of range"
  | (container_selector, _) :: _ =>
    .ok ((soup.select container_selector).map (fun c =>
      { scraped_at := now
        url := cfg.url
        fields := (cfg.selectors.filter (fun p => p.1 != container_selector)).map
          (fun p => (p.1, resolve_dynamic c p.2)) }))

deriving instance DecidableEq for Except

/-- Observable trace of one `retry_scrape` run: the returned value
(`none` models the Python function falling through and returning `None`,
which happens exactly when `max_retries = 0`), the number of times
`self.scrape()` was invoked, and the `time.sleep` durations performed
between attempts, in order. -/
structure RetryTrace (α : Type) where
  result : Option (Except String α)
  calls : Nat
  sleeps : List Nat
  deriving DecidableEq

/-- The body of `BaseScraper.retry_scrape`'s `for attempt in range(max_retries)`
loop (lines 63-73).  `scrapeAt k` is the outcome of the `self.scrape()` call
made on loop iteration `k`; `fuel` is the number of loop iterations left
(`max_retries - attempt`).  On failure the loop sleeps `2 ** attempt`
when `attempt < max_retries - 1` and re-raises otherwise. -/
def retryLoop (scrapeAt : Nat → Except String α) (max_retries : Nat) :
    Nat → Nat → RetryTrace α
  | _, 0 => ⟨none, 0, []⟩
  | attempt, fuel + 1 =>
    match scrapeAt attempt with
    | .ok v => ⟨some (.ok v), 1, []⟩
    | .error e =>
      if attempt < max_retries - 1 then
        let t := retryLoop scrapeAt max_retries (attempt + 1) fuel
        ⟨t.result, t.calls + 1, 2 ^ attempt :: t.sleeps⟩
      else ⟨some (.error e), 1, []⟩

/-- `BaseScraper.retry_scrape` (lines 63-73): run the loop from
`attempt = 0` with `max_retries` iterations available. -/
def retry_scrape (scrapeAt : Nat → Except String α) (max_retries : Nat) :
    RetryTrace α :=
  retryLoop scrapeAt max_retries 0 max_retries

/-- A file-write effect handed to the external serialization capability
(pandas `to_csv` / `json.dump` into `open(filename, 'w')`): the file
name and the record batch written there.  A `none` payload is Python's
`None` object handed to `json.dump`. -/
structure FileWrite where
  filename : String
  payload : Option (List Record)
  deriving DecidableEq

/-- A relational-append effect handed to `pandas.DataFrame.to_sql` on a
`sqlite3` connection: store, table, and the appended batch. -/
structure DbWrite where
  db_name : String
  table_name : String
  payload : List Record
  deriving DecidableEq

/-- `DataExporter.to_csv` (lines 201-210): an empty batch returns after a
log line with no write; otherwise the batch is written to `filename`. -/
def DataExporter.to_csv (data : List Record) (filename : String) : List FileWrite :=
  if data.isEmpty then [] else [⟨filename, some data⟩]

/-- `DataExporter.to_json` (lines 212-217): no empty-batch guard —
`open(filename, 'w')` always creates the file and `json.dump` always
writes the batch (an empty batch writes an empty array). -/
def DataExporter.to_json (data : List Record) (filename : String) : List FileWrite :=
  [⟨filename, some data⟩]

/-- `DataExporter.to_database` (lines 219-230): an empty batch returns
after a log line with no connection opened; otherwise the batch is
appended to `table_name` in `db_name`. -/
def DataExporter.to_database (data : List Record) (db_name table_name : String) :
    List DbWrite :=
  if data.isEmpty then [] else [⟨db_name, table_name, data⟩]

/-- The scheduler's state (`WebScraperScheduler.__init__` plus the global
`schedule` module): the `jobs` dict keyed by job name, the `running` flag,
and the periodic triggers installed through `schedule.every(...)`, each
recorded as (job name, magnitude, unit). -/
structure WebScraperScheduler where
  jobs : List (String × ScrapeConfig)
  running : Bool := false
  triggers : List (String × Int × String) := []
  deriving DecidableEq

/-- Python `s.endswith(post)`, written over the character list. -/
def ends_with (s post : String) : Bool :=
  post.data.isSuffixOf s.data

/-- Python slicing `s[:-n]` for `n ≥ 1`: the string without its last `n`
characters (empty when `n ≥ len(s)`). -/
def drop_right (s : String) (n : Nat) : String :=
  ⟨s.data.take (s.data.length - n)⟩

/-- Python `int(s)`: optional surrounding whitespace, an optional sign,
then one or more decimal digits; anything else raises `ValueError`,
modelled as `none`. -/
def parse_int (s : String) : Option Int :=
  let digits : Int → List Char → Option Int := fun sign ds =>
    if ds.isEmpty then none
    else if ds.all Char.isDigit then
      some (sign * (ds.foldl (fun acc c => acc * 10 + (c.toNat - 48)) 0 : Nat))
    else none
  match (strip s).data with
  | '-' :: rest => digits (-1) rest
  | '+' :: rest => digits 1 rest
  | cs => digits 1 cs

/-- Python dict assignment `d[k] = v`: replace the value at an existing
key in place, else append the binding at the end. -/
def dict_insert (k : String) (v : α) : List (String × α) → List (String × α)
  | [] => [(k, v)]
  | (k', v') :: rest =>
    if k' = k then (k, v) :: rest else (k', v') :: dict_insert k v rest

/-- What a call to `WebScraperScheduler.add_job` did besides mutating
state: installed a periodic trigger, logged "Invalid schedule interval"
and installed nothing, or raised `ValueError` out of `int(...)`. -/
inductive AddJobOutcome where
  | scheduled (magnitude : Int) (unit : String)
  | invalid
  | valueError
  deriving DecidableEq

/-- `WebScraperScheduler.add_job` (lines 240-257): `self.jobs[config.name]
= config` unconditionally, then the interval suffix is matched in the
order `min`, `hour`, `day`; a recognized suffix installs a trigger for the
`int(...)` of the remaining prefix (raising `ValueError` if it is not an
integer), an unrecognized suffix only logs an error. -/
def WebScraperScheduler.add_job (s : WebScraperScheduler) (config : ScrapeConfig) :
    WebScraperScheduler × AddJobOutcome :=
  let jobs' := dict_insert config.name config s.jobs
  if ends_with config.schedule_interval "min" then
    match parse_int (drop_right config.schedule_interval 3) with
    | some n =>
      ({ s with jobs := jobs', triggers := s.triggers ++ [(config.name, n, "minutes")] },
        .scheduled n "minutes")
    | none => ({ s with jobs := jobs' }, .valueError)
  else if ends_with config.schedule_interval "hour" then
    match parse_int (drop_right config.schedule_interval 4) with
    | some n =>
      ({ s with jobs := jobs', triggers := s.triggers ++ [(config.name, n, "hours")] },
        .scheduled n "hours")
    | none => ({ s with jobs := jobs' }, .valueError)
  else if ends_with config.schedule_interval "day" then
    match parse_int (drop_right config.schedule_interval 3) with
    | some n =>
      ({ s with jobs := jobs', triggers := s.triggers ++ [(config.name, n, "days")] },
        .scheduled n "days")
    | none => ({ s with jobs := jobs' }, .valueError)
  else ({ s with jobs := jobs' }, .invalid)

/-- The observable outcome of one `WebScraperScheduler._run_job` dispatch:
the job completed (with the export effects it performed), or an exception
was caught by the `except Exception` boundary and logged, or `job_name`
was absent from `self.jobs` and the lookup on line 261 raised `KeyError`
out of the dispatch (that lookup is outside the `try`). -/
inductive RunOutcome where
  | completed (file_writes : List FileWrite) (db_writes : List DbWrite)
  | caught (msg : String)
  | keyError
  deriving DecidableEq

/-- `WebScraperScheduler._run_job` (lines 259-290).  `scrapeAt` is the
oracle of successive `scraper.scrape()` outcomes consumed by
`retry_scrape`; `timestamp` is the formatted wall-clock time used in the
output file name; `sink` is the outcome of the external write (an
`ExportError` raised by the filesystem or database is also caught by the
dispatch boundary). -/
def WebScraperScheduler.run_job (s : WebScraperScheduler) (job_name : String)
    (scrapeAt : Nat → Except String (List Record)) (timestamp : String)
    (sink : Except String Unit) : RunOutcome :=
  match s.jobs.lookup job_name with
  | none => .keyError
  | some config =>
    match (retry_scrape scrapeAt config.max_retries).result with
    | some (.error e) => .caught e
    | some (.ok data) =>
      let effects : List FileWrite × List DbWrite :=
        if config.output_format == "csv" then
          (DataExporter.to_csv data (job_name ++ "_" ++ timestamp ++ ".csv"), [])
        else if config.output_format == "json" then
          (DataExporter.to_json data (job_name ++ "_" ++ timestamp ++ ".json"), [])
        else if config.output_format == "database" then
          ([], DataExporter.to_database data (job_name ++ ".db") job_name)
        else ([], [])
      if effects.1.isEmpty && effects.2.isEmpty then .completed [] []
      else
        match sink with
        | .error e => .caught e
        | .ok _ => .completed effects.1 effects.2
    | none =>
      if config.output_format == "json" then
        match sink with
        | .error e => .caught e
        | .ok _ => .completed [⟨job_name ++ "_" ++ timestamp ++ ".json", none⟩] []
      else .completed [] []

/-- What `WebScraperScheduler.run_job_now` did: dispatched the job, or
logged "Job not found" and returned normally. -/
inductive RunNowOutcome where
  | ran (o : RunOutcome)
  | notFound
  deriving DecidableEq

/-- `WebScraperScheduler.run_job_now` (lines 292-297): `if job_name in
self.jobs` dispatch through `_run_job`, else log an error and return. -/
def WebScraperScheduler.run_job_now (s : WebScraperScheduler) (job_name : String)
    (scrapeAt : Nat → Except String (List Record)) (timestamp : String)
    (sink : Except String Unit) : RunNowOutcome :=
  if (s.jobs.lookup job_name).isSome then
    .ran (s.run_job job_name scrapeAt timestamp sink)
  else .notFound

/-! ## Concrete fixtures

A small news page in the shape of the example configuration
(`create_example_configs`, lines 329-343): two containers matched under
the selector string `article`, the second one missing the link element. -/

/-- An attempt oracle that fails twice and then succeeds. -/
def failTwiceThenOk : Nat → Except String Nat :=
  fun i => if i < 2 then .error ("boom " ++ toString i) else .ok 42

/-- An attempt oracle that always fails. -/
def alwaysFail : Nat → Except String Nat :=
  fun i => .error ("down " ++ toString i)

/-- An always-failing scrape oracle at the record type used by dispatch. -/
def alwaysFailRun : Nat → Except String (List Record) :=
  fun i => .error ("down " ++ toString i)

/-- A title element whose text carries surrounding whitespace. -/
def elemTitle : Element := ⟨[("class", "t")], "  Alpha  "⟩

/-- A link element carrying an `href`. -/
def elemLink : Element := ⟨[("href", "http://n/a1")], "read more"⟩

/-- A second title element, in a container with no link. -/
def elemTitle2 : Element := ⟨[], "Beta"⟩

/-- An element whose `href` attribute is present but empty. -/
def hrefEmptyElem : Element := ⟨[("href", "")], " hello "⟩

/-- First container: has both a title and a link. -/
def cont1 : Container := ⟨[("h2.title", elemTitle), ("a.read-more", elemLink)]⟩

/-- Second container: has a title but no link element. -/
def cont2 : Container := ⟨[("h2.title", elemTitle2)]⟩

/-- The parsed page: two containers under the selector string `article`. -/
def soupEx : Soup := ⟨[("article", [cont1, cont2])]⟩

/-- The news job configuration. -/
def cfgNews : ScrapeConfig :=
  { name := "news", url := "http://n", scrape_type := "static",
    selectors := [("article", "article.news-item"), ("title", "h2.title"),
      ("link", "a.read-more")],
    schedule_interval := "5min", output_format := "csv" }

/-- A different configuration registered under the same name. -/
def cfgNews2 : ScrapeConfig := { cfgNews with url := "http://other" }

/-- A configuration whose interval unit is not minutes/hours/days. -/
def cfgSec : ScrapeConfig :=
  { cfgNews with name := "secjob", schedule_interval := "5sec" }

/-- A freshly constructed scheduler. -/
def sched0 : WebScraperScheduler := ⟨[], false, []⟩

/-- A scheduler holding the news job. -/
def schedNews : WebScraperScheduler := ⟨[("news", cfgNews)], false, []⟩

/-! ## Helper lemmas -/

theorem lookup_map_pairs (g : String → Option String) :
    ∀ (l : List (String × String)) (k sel : String),
      (l.map Prod.fst).Nodup → (k, sel) ∈ l →
      (l.map (fun p => (p.1, g p.2))).lookup k = some (g sel) := by
  intro l
  induction l with
  | nil => simp
  | cons a t ih =>
    rintro k sel hnd hm
    rw [List.map_cons, List.nodup_cons] at hnd
    rcases List.mem_cons.mp hm with heq | hmem
    · subst heq
      simp [List.lookup]
    · have hk : k ≠ a.1 := fun he =>
        hnd.1 (he ▸ List.mem_map.mpr ⟨(k, sel), hmem, rfl⟩)
      have hkb : (k == a.1) = false := beq_eq_false_iff_ne.mpr hk
      obtain ⟨a1, a2⟩ := a
      simp only [List.map_cons, List.lookup, hkb]
      exact ih k sel hnd.2 hmem

theorem lookup_eq_none_of_forall {β : Type} (k : String) :
    ∀ l : List (String × β), (∀ p ∈ l, p.1 ≠ k) → l.lookup k = none := by
  intro l
  induction l with
  | nil => intro _; rfl
  | cons a t ih =>
    intro h
    obtain ⟨a1, a2⟩ := a
    have hkb : (k == a1) = false :=
      beq_eq_false_iff_ne.mpr fun he => h (a1, a2) (by simp) he.symm
    simp only [List.lookup, hkb]
    exact ih fun p hp => h p (by simp [hp])

theorem lookup_dict_insert_self (k : String) (v : α) :
    ∀ l : List (String × α), (dict_insert k v l).lookup k = some v := by
  intro l
  induction l with
  | nil => simp [dict_insert, List.lookup]
  | cons a t ih =>
    obtain ⟨a1, a2⟩ := a
    by_cases h : a1 = k
    · subst h
      simp [dict_insert, List.lookup]
    · have hkb : (k == a1) = false := beq_eq_false_iff_ne.mpr (Ne.symm h)
      simp only [dict_insert, if_neg h, List.lookup, hkb]
      exact ih

theorem retryLoop_calls_le (f : Nat → Except String α) (mr : Nat) :
    ∀ fuel attempt, (retryLoop f mr attempt fuel).calls ≤ fuel := by
  intro fuel
  induction fuel with
  | zero => intro attempt; simp [retryLoop]
  | succ n ih =>
    intro attempt
    rw [retryLoop]
    cases hf : f attempt with
    | ok v => simp
    | error e =>
      by_cases hlt : attempt < mr - 1
      · simpa [hlt] using ih (attempt + 1)
      · simp [hlt]

theorem static_scrape_eq (cfg : ScrapeConfig) (soup : Soup) (now csel v : String)
    (rest : List (String × String)) (h : cfg.selectors = (csel, v) :: rest) :
    StaticScraper.scrape cfg soup now
      = .ok ((soup.select csel).map (fun c =>
          { scraped_at := now, url := cfg.url,
            fields := (rest.filter (fun p => p.1 != csel)).map
              (fun p => (p.1, resolve_static c p.2)) })) := by
  unfold StaticScraper.scrape
  rw [h]
  simp [List.filter_cons]

theorem dynamic_scrape_eq (cfg : ScrapeConfig) (soup : Soup) (now csel v : String)
    (rest : List (String × String)) (h : cfg.selectors = (csel, v) :: rest) :
    DynamicScraper.scrape cfg soup now
      = .ok ((soup.select csel).map (fun c =>
          { scraped_at := now, url := cfg.url,
            fields := (rest.filter (fun p => p.1 != csel)).map
              (fun p => (p.1, resolve_dynamic c p.2)) })) := by
  unfold DynamicScraper.scrape
  rw [h]
  simp [List.filter_cons]

theorem nodup_keys_filter (pred : String × String → Bool)
    (l : List (String × String)) (h : (l.map Prod.fst).Nodup) :
    ((l.filter pred).map Prod.fst).Nodup := by
  have hs : (l.filter pred).Sublist l := List.filter_sublist l
  exact List.Nodup.sublist (hs.map Prod.fst) h

/-! ## Claims -/

/-- Claim C1, counterexample: in the failing-then-succeeding 3-attempt run,
the backoff delays `time.sleep(2 ** attempt)` inserted between attempts
are exactly `[1, 2]` (line 71 sleeps `2 ** 0` after the first failure and
`2 ** 1` after the second), so the inserted gap between attempt 1 and
attempt 2 is 1, not at least 2, and the gap between attempt 2 and
attempt 3 is 2, not at least 4. -/
theorem C1_backoff_counterexample :
    (retry_scrape failTwiceThenOk 3).sleeps = [1, 2]
    ∧ ¬ 2 ≤ (retry_scrape failTwiceThenOk 3).sleeps.headI
    ∧ ¬ 4 ≤ (retry_scrape failTwiceThenOk 3).sleeps.getLastI := by
  decide

/-- Claim C1, amended: for a failing-then-succeeding 3-attempt run the
delays inserted between consecutive attempts are exponential with base 2
starting at `2 ^ 0`: the run sleeps `2 ^ 0 = 1` between attempt 1 and
attempt 2 and `2 ^ 1 = 2` between attempt 2 and attempt 3, and sleeps
occur only between attempts (one fewer sleep than scrape calls), never
before the first attempt. -/
theorem C1_backoff_between_attempts {α : Type} (f : Nat → Except String α)
    (e₀ e₁ : String) (v : α)
    (h0 : f 0 = .error e₀) (h1 : f 1 = .error e₁) (h2 : f 2 = .ok v) :
    (retry_scrape f 3).sleeps = [2 ^ 0, 2 ^ 1]
    ∧ (retry_scrape f 3).calls = 3
    ∧ (retry_scrape f 3).sleeps.length + 1 = (retry_scrape f 3).calls := by
  have : retry_scrape f 3 = ⟨some (.ok v), 3, [2 ^ 0, 2 ^ 1]⟩ := by
    show retryLoop f 3 0 3 = _
    rw [retryLoop, h0]
    norm_num
    rw [retryLoop, h1]
    norm_num
    rw [retryLoop, h2]
    simp
  rw [this]
  exact ⟨rfl, rfl, rfl⟩

/-- Claim C1, witness of the amended theorem at a concrete oracle. -/
theorem C1_backoff_between_attempts_witness :
    (retry_scrape failTwiceThenOk 3).sleeps = [2 ^ 0, 2 ^ 1]
    ∧ (retry_scrape failTwiceThenOk 3).calls = 3
    ∧ (retry_scrape failTwiceThenOk 3).sleeps.length + 1
        = (retry_scrape failTwiceThenOk 3).calls :=
  C1_backoff_between_attempts failTwiceThenOk "boom 0" "boom 1" 42 rfl rfl rfl

/-- Claim C2: the retrying runner invokes the extractor at most
`max_retries` times; with `max_retries = 3` it returns the extractor's
result of the first attempt that completes without raising; if all three
attempts fail, exactly 3 calls are made and the outcome carries the last
attempt's error; if the extractor fails twice and then succeeds, the
outcome is the success after exactly 3 calls. -/
theorem C2_retry_semantics {α : Type} (f : Nat → Except String α) :
    (∀ max_retries, (retry_scrape f max_retries).calls ≤ max_retries)
    ∧ (∀ k v, k < 3 → (∀ i, i < k → ∃ e, f i = .error e) → f k = .ok v →
        (retry_scrape f 3).result = some (.ok v)
          ∧ (retry_scrape f 3).calls = k + 1)
    ∧ (∀ e₀ e₁ e₂, f 0 = .error e₀ → f 1 = .error e₁ → f 2 = .error e₂ →
        (retry_scrape f 3).result = some (.error e₂)
          ∧ (retry_scrape f 3).calls = 3)
    ∧ (∀ e₀ e₁ v, f 0 = .error e₀ → f 1 = .error e₁ → f 2 = .ok v →
        (retry_scrape f 3).result = some (.ok v)
          ∧ (retry_scrape f 3).calls = 3) := by
  refine ⟨fun mr => retryLoop_calls_le f mr mr 0, ?_, ?_, ?_⟩
  · intro k v hk hfail hok
    interval_cases k
    · have : retry_scrape f 3 = ⟨some (.ok v), 1, []⟩ := by
        show retryLoop f 3 0 3 = _
        rw [retryLoop, hok]
      rw [this]; exact ⟨rfl, rfl⟩
    · obtain ⟨e₀, h0⟩ := hfail 0 (by norm_num)
      have : retry_scrape f 3 = ⟨some (.ok v), 2, [2 ^ 0]⟩ := by
        show retryLoop f 3 0 3 = _
        rw [retryLoop, h0]
        norm_num
        rw [retryLoop, hok]
        simp
      rw [this]; exact ⟨rfl, rfl⟩
    · obtain ⟨e₀, h0⟩ := hfail 0 (by norm_num)
      obtain ⟨e₁, h1⟩ := hfail 1 (by norm_num)
      have : retry_scrape f 3 = ⟨some (.ok v), 3, [2 ^ 0, 2 ^ 1]⟩ := by
        show retryLoop f 3 0 3 = _
        rw [retryLoop, h0]
        norm_num
        rw [retryLoop, h1]
        norm_num
        rw [retryLoop, hok]
        simp
      rw [this]; exact ⟨rfl, rfl⟩
  · intro e₀ e₁ e₂ h0 h1 h2
    have : retry_scrape f 3 = ⟨some (.error e₂), 3, [2 ^ 0, 2 ^ 1]⟩ := by
      show retryLoop f 3 0 3 = _
      rw [retryLoop, h0]
      norm_num
      rw [retryLoop, h1]
      norm_num
      rw [retryLoop, h2]
      simp
    rw [this]; exact ⟨rfl, rfl⟩
  · intro e₀ e₁ v h0 h1 h2
    have : retry_scrape f 3 = ⟨some (.ok v), 3, [2 ^ 0, 2 ^ 1]⟩ := by
      show retryLoop f 3 0 3 = _
      rw [retryLoop, h0]
      norm_num
      rw [retryLoop, h1]
      norm_num
      rw [retryLoop, h2]
      simp
    rw [this]; exact ⟨rfl, rfl⟩

/-- Claim C2, witness: the retry-exhaustion and the
fail-twice-then-succeed scenarios at concrete oracles. -/
theorem C2_retry_semantics_witness :
    ((retry_scrape alwaysFail 3).result = some (.error "down 2")
      ∧ (retry_scrape alwaysFail 3).calls = 3)
    ∧ ((retry_scrape failTwiceThenOk 3).result = some (.ok 42)
      ∧ (retry_scrape failTwiceThenOk 3).calls = 3) :=
  ⟨(C2_retry_semantics alwaysFail).2.2.1 "down 0" "down 1" "down 2" rfl rfl rfl,
   (C2_retry_semantics failTwiceThenOk).2.2.2 "boom 0" "boom 1" 42 rfl rfl rfl⟩

/-- Claim C3, counterexample: registering a second config under the
already-registered name `news` does not fail with a duplicate-name error —
`add_job` succeeds (it even installs a second trigger) and the jobs dict
now holds the second config, the first registration being replaced rather
than left in place; and `run_job_now` of a never-registered name only
logs "not found" and returns normally instead of surfacing an error. -/
theorem C3_registry_counterexample :
    (((sched0.add_job cfgNews).1.add_job cfgNews2).2 = .scheduled 5 "minutes")
    ∧ (((sched0.add_job cfgNews).1.add_job cfgNews2).1.jobs.lookup "news"
        = some cfgNews2)
    ∧ cfgNews2 ≠ cfgNews
    ∧ sched0.run_job_now "ghost" alwaysFailRun "T" (.ok ()) = .notFound := by
  decide

/-- Claim C3, amended: `add_job` never rejects a duplicate name — after
registration the jobs dict maps the name to the newly supplied config,
silently replacing any previous one; and `run_job_now` of an unregistered
name logs the error and returns `notFound` without raising. -/
theorem C3_registry_overwrites (s : WebScraperScheduler) (config : ScrapeConfig)
    (name : String) (scrapeAt : Nat → Except String (List Record))
    (timestamp : String) (sink : Except String Unit)
    (habsent : s.jobs.lookup name = none) :
    ((s.add_job config).1.jobs.lookup config.name = some config)
    ∧ s.run_job_now name scrapeAt timestamp sink = .notFound := by
  constructor
  · have hjobs : (s.add_job config).1.jobs = dict_insert config.name config s.jobs := by
      unfold WebScraperScheduler.add_job
      repeat' split
      all_goals rfl
    rw [hjobs]
    exact lookup_dict_insert_self config.name config s.jobs
  · unfold WebScraperScheduler.run_job_now
    rw [habsent]
    rfl

/-- Claim C3, witness of the amended theorem at concrete state. -/
theorem C3_registry_overwrites_witness :
    ((sched0.add_job cfgNews).1.jobs.lookup cfgNews.name = some cfgNews)
    ∧ sched0.run_job_now "ghost" alwaysFailRun "T" (.ok ()) = .notFound :=
  C3_registry_overwrites sched0 cfgNews "ghost" alwaysFailRun "T" (.ok ()) rfl

/-- Claim C4, counterexample: exporting an empty batch through the
structured-document sink is not write-free — `to_json` opens
`open(filename, 'w')` unconditionally, creating the file and writing the
empty batch into it. -/
theorem C4_empty_export_counterexample :
    DataExporter.to_json [] "out.json" = [⟨"out.json", some []⟩]
    ∧ DataExporter.to_json [] "out.json" ≠ [] := by
  decide

/-- Claim C4, amended: exporting an empty record batch performs no write
for the delimited-text (`to_csv`) and relational-append (`to_database`)
sinks, which return after only logging; the structured-document
(`to_json`) sink instead always creates the file and writes the batch,
an empty batch producing a file holding an empty array. -/
theorem C4_empty_export (filename db_name table_name : String) :
    DataExporter.to_csv [] filename = []
    ∧ DataExporter.to_database [] db_name table_name = []
    ∧ DataExporter.to_json [] filename = [⟨filename, some []⟩] := by
  exact ⟨rfl, rfl, rfl⟩

/-- Claim C5, counterexample: registering the job whose interval is
`5sec` (no recognized unit) raises nothing — the outcome is only the
logged `invalid` branch, yet the job is stored in the jobs dict and no
periodic trigger is installed: precisely the behavior the claim rules
out. -/
theorem C5_invalid_schedule_counterexample :
    ((sched0.add_job cfgSec).2 = .invalid)
    ∧ ((sched0.add_job cfgSec).1.jobs.lookup "secjob" = some cfgSec)
    ∧ ((sched0.add_job cfgSec).1.triggers = []) := by
  decide

/-- Claim C5, amended: when `schedule_interval` ends in none of `min`,
`hour`, `day`, registration does not fail: `add_job` stores the job in
the dict, installs no trigger, and merely logs the invalid interval. -/
theorem C5_invalid_schedule_logged (s : WebScraperScheduler) (config : ScrapeConfig)
    (hmin : ends_with config.schedule_interval "min" = false)
    (hhour : ends_with config.schedule_interval "hour" = false)
    (hday : ends_with config.schedule_interval "day" = false) :
    s.add_job config
      = ({ s with jobs := dict_insert config.name config s.jobs }, .invalid) := by
  unfold WebScraperScheduler.add_job
  rw [hmin, hhour, hday]
  rfl

/-- Claim C5, witness of the amended theorem at the `5sec` job. -/
theorem C5_invalid_schedule_logged_witness :
    sched0.add_job cfgSec
      = ({ sched0 with jobs := dict_insert cfgSec.name cfgSec sched0.jobs }, .invalid) :=
  C5_invalid_schedule_logged sched0 cfgSec (by decide) (by decide) (by decide)

/-- Claim C6, counterexample: an element whose `href` attribute is
present but empty does not yield the `href` — Python's truthiness test
`if element.get('href'):` skips an empty attribute value and falls
through to the stripped text content. -/
theorem C6_value_priority_counterexample :
    hrefEmptyElem.get "href" = some ""
    ∧ extract_value hrefEmptyElem = "hello"
    ∧ extract_value hrefEmptyElem ≠ "" := by
  decide

/-- Claim C6, amended: the extracted value is chosen by fixed priority
over *truthy* (present and non-empty) attributes: a non-empty `href`
wins; with `href` absent or empty, a non-empty `src` wins; with both
absent or empty, the stripped text content is used. -/
theorem C6_value_priority (e : Element) :
    (∀ h, e.get "href" = some h → h ≠ "" → extract_value e = h)
    ∧ (∀ s, truthy (e.get "href") = false → e.get "src" = some s → s ≠ "" →
        extract_value e = s)
    ∧ (truthy (e.get "href") = false → truthy (e.get "src") = false →
        extract_value e = strip e.text) := by
  refine ⟨?_, ?_, ?_⟩
  · intro h hh hne
    simp [extract_value, hh, truthy, hne]
  · intro s hhref hsrc hne
    have hs : truthy (some s) = true := by simp [truthy, hne]
    simp [extract_value, hhref, hsrc, hs]
  · intro hhref hsrc
    simp [extract_value, hhref, hsrc]

/-- Claim C6, witness: the priority at concrete elements — an element
with both a non-empty `href` and text yields the `href`, and an element
with neither attribute yields its stripped text. -/
theorem C6_value_priority_witness :
    extract_value elemLink = "http://n/a1"
    ∧ extract_value elemTitle2 = strip elemTitle2.text :=
  ⟨(C6_value_priority elemLink).1 "http://n/a1" rfl (by decide),
   (C6_value_priority elemTitle2).2.2 rfl rfl⟩

/-- Claim C7: when the container selector matches `N` elements, both
scrapers succeed with exactly `N` records, one per container in order;
every record carries the fetch timestamp and the source URL; and each
remaining field (any entry of the selector mapping after the first,
whose name differs from the container selector) is resolved by a lookup
scoped to that record's own container. -/
theorem C7_container_scoping (cfg : ScrapeConfig) (soup : Soup) (now csel v : String)
    (rest : List (String × String))
    (hsel : cfg.selectors = (csel, v) :: rest)
    (hnd : (cfg.selectors.map Prod.fst).Nodup) :
    ∃ srecords drecords : List Record,
      StaticScraper.scrape cfg soup now = .ok srecords
      ∧ DynamicScraper.scrape cfg soup now = .ok drecords
      ∧ srecords.length = (soup.select csel).length
      ∧ drecords.length = (soup.select csel).length
      ∧ (∀ r ∈ srecords, r.scraped_at = now ∧ r.url = cfg.url)
      ∧ (∀ r ∈ drecords, r.scraped_at = now ∧ r.url = cfg.url)
      ∧ (∀ (i : Nat) (c : Container), (soup.select csel)[i]? = some c →
          ∀ field sel : String, (field, sel) ∈ rest → field ≠ csel →
            (∃ r : Record, srecords[i]? = some r
              ∧ r.fields.lookup field = some (resolve_static c sel))
            ∧ (∃ r : Record, drecords[i]? = some r
              ∧ r.fields.lookup field = some (resolve_dynamic c sel))) := by
  have hndrest : (rest.map Prod.fst).Nodup := by
    rw [hsel, List.map_cons, List.nodup_cons] at hnd
    exact hnd.2
  have hndfil : ((rest.filter (fun p => p.1 != csel)).map Prod.fst).Nodup :=
    nodup_keys_filter _ rest hndrest
  refine ⟨(soup.select csel).map (fun c =>
      { scraped_at := now, url := cfg.url,
        fields := (rest.filter (fun p => p.1 != csel)).map
          (fun p => (p.1, resolve_static c p.2)) }),
    (soup.select csel).map (fun c =>
      { scraped_at := now, url := cfg.url,
        fields := (rest.filter (fun p => p.1 != csel)).map
          (fun p => (p.1, resolve_dynamic c p.2)) }),
    static_scrape_eq cfg soup now csel v rest hsel,
    dynamic_scrape_eq cfg soup now csel v rest hsel,
    by simp, by simp, ?_, ?_, ?_⟩
  · intro r hr
    obtain ⟨c, _, rfl⟩ := List.mem_map.mp hr
    exact ⟨rfl, rfl⟩
  · intro r hr
    obtain ⟨c, _, rfl⟩ := List.mem_map.mp hr
    exact ⟨rfl, rfl⟩
  · intro i c hc field sel hmem hne
    have hfil : (field, sel) ∈ rest.filter (fun p => p.1 != csel) :=
      List.mem_filter.mpr ⟨hmem, by simpa using hne⟩
    constructor
    · exact ⟨{ scraped_at := now, url := cfg.url,
               fields := (rest.filter (fun p => p.1 != csel)).map
                 (fun p => (p.1, resolve_static c p.2)) },
        by rw [List.getElem?_map, hc]; rfl,
        lookup_map_pairs (resolve_static c) _ field sel hndfil hfil⟩
    · exact ⟨{ scraped_at := now, url := cfg.url,
               fields := (rest.filter (fun p => p.1 != csel)).map
                 (fun p => (p.1, resolve_dynamic c p.2)) },
        by rw [List.getElem?_map, hc]; rfl,
        lookup_map_pairs (resolve_dynamic c) _ field sel hndfil hfil⟩

/-- Claim C7, witness: on the concrete two-container page the static
scraper yields exactly two records. -/
theorem C7_container_scoping_witness :
    (StaticScraper.scrape cfgNews soupEx "T").toOption.map List.length = some 2 := by
  obtain ⟨sr, dr, hs, hd, hlen, _⟩ :=
    C7_container_scoping cfgNews soupEx "T" "article" "article.news-item"
      [("title", "h2.title"), ("link", "a.read-more")] rfl (by decide)
  rw [hs]
  show some sr.length = some 2
  rw [hlen]
  decide

/-- Claim C8: a field selector that resolves to no element within a
container — `select_one` returning `None` in the static scraper, or the
element lookup raising in the dynamic scraper — produces a `None` field
value; the record is still emitted (both scrapers succeed with one
record per container, the unmatched field present and null), so
field-level resolution failures never become a record- or run-level
failure. -/
theorem C8_null_field_absorption (cfg : ScrapeConfig) (soup : Soup)
    (now csel v : String) (rest : List (String × String))
    (hsel : cfg.selectors = (csel, v) :: rest)
    (hnd : (cfg.selectors.map Prod.fst).Nodup) :
    (∀ (c : Container) (sel : String), c.elems.lookup sel = none →
        resolve_static c sel = none ∧ resolve_dynamic c sel = none)
    ∧ (∀ (c : Container) (sel e : String), find_element c sel = .error e →
        resolve_dynamic c sel = none)
    ∧ ∃ srecords drecords : List Record,
        StaticScraper.scrape cfg soup now = .ok srecords
        ∧ DynamicScraper.scrape cfg soup now = .ok drecords
        ∧ srecords.length = (soup.select csel).length
        ∧ drecords.length = (soup.select csel).length
        ∧ (∀ (i : Nat) (c : Container), (soup.select csel)[i]? = some c →
            ∀ field sel : String, (field, sel) ∈ rest → field ≠ csel →
              c.elems.lookup sel = none →
              (∃ r : Record, srecords[i]? = some r
                ∧ r.fields.lookup field = some none)
              ∧ (∃ r : Record, drecords[i]? = some r
                ∧ r.fields.lookup field = some none)) := by
  have hndrest : (rest.map Prod.fst).Nodup := by
    rw [hsel, List.map_cons, List.nodup_cons] at hnd
    exact hnd.2
  have hndfil : ((rest.filter (fun p => p.1 != csel)).map Prod.fst).Nodup :=
    nodup_keys_filter _ rest hndrest
  refine ⟨?_, ?_, ?_⟩
  · intro c sel hnone
    constructor
    · simp [resolve_static, hnone]
    · simp [resolve_dynamic, find_element, hnone]
  · intro c sel e herr
    simp [resolve_dynamic, herr]
  · refine ⟨(soup.select csel).map (fun c =>
        { scraped_at := now, url := cfg.url,
          fields := (rest.filter (fun p => p.1 != csel)).map
            (fun p => (p.1, resolve_static c p.2)) }),
      (soup.select csel).map (fun c =>
        { scraped_at := now, url := cfg.url,
          fields := (rest.filter (fun p => p.1 != csel)).map
            (fun p => (p.1, resolve_dynamic c p.2)) }),
      static_scrape_eq cfg soup now csel v rest hsel,
      dynamic_scrape_eq cfg soup now csel v rest hsel,
      by simp, by simp, ?_⟩
    intro i c hc field sel hmem hne hnone
    have hfil : (field, sel) ∈ rest.filter (fun p => p.1 != csel) :=
      List.mem_filter.mpr ⟨hmem, by simpa using hne⟩
    have hrs : resolve_static c sel = none := by simp [resolve_static, hnone]
    have hrd : resolve_dynamic c sel = none := by
      simp [resolve_dynamic, find_element, hnone]
    constructor
    · exact ⟨{ scraped_at := now, url := cfg.url,
               fields := (rest.filter (fun p => p.1 != csel)).map
                 (fun p => (p.1, resolve_static c p.2)) },
        by rw [List.getElem?_map, hc]; rfl,
        hrs ▸ lookup_map_pairs (resolve_static c) _ field sel hndfil hfil⟩
    · exact ⟨{ scraped_at := now, url := cfg.url,
               fields := (rest.filter (fun p => p.1 != csel)).map
                 (fun p => (p.1, resolve_dynamic c p.2)) },
        by rw [List.getElem?_map, hc]; rfl,
        hrd ▸ lookup_map_pairs (resolve_dynamic c) _ field sel hndfil hfil⟩

/-- Claim C8, witness: in the concrete page's second container the link
selector matches nothing, and both resolutions yield the null value. -/
theorem C8_null_field_absorption_witness :
    resolve_static cont2 "a.read-more" = none
    ∧ resolve_dynamic cont2 "a.read-more" = none :=
  (C8_null_field_absorption cfgNews soupEx "T" "article" "article.news-item"
      [("title", "h2.title"), ("link", "a.read-more")] rfl (by decide)).1
    cont2 "a.read-more" rfl

/-- Claim C10: both scrapers enumerate containers by the *first key* of
the selector mapping, not by its associated value — replacing the first
entry's value changes nothing in the output — and the field named by
that first key is omitted from every produced record. -/
theorem C10_container_selector_is_first_key (cfg : ScrapeConfig) (soup : Soup)
    (now csel v v' : String) (rest : List (String × String))
    (hsel : cfg.selectors = (csel, v) :: rest) :
    (StaticScraper.scrape { cfg with selectors := (csel, v') :: rest } soup now
      = StaticScraper.scrape cfg soup now)
    ∧ (DynamicScraper.scrape { cfg with selectors := (csel, v') :: rest } soup now
      = DynamicScraper.scrape cfg soup now)
    ∧ (∃ srecords : List Record,
        StaticScraper.scrape cfg soup now = .ok srecords
        ∧ srecords.length = (soup.select csel).length
        ∧ ∀ r ∈ srecords, r.fields.lookup csel = none)
    ∧ (∃ drecords : List Record,
        DynamicScraper.scrape cfg soup now = .ok drecords
        ∧ drecords.length = (soup.select csel).length
        ∧ ∀ r ∈ drecords, r.fields.lookup csel = none) := by
  have hkeys : ∀ q ∈ (rest.filter (fun p => p.1 != csel)), q.1 ≠ csel := by
    intro q hq
    have := (List.mem_filter.mp hq).2
    simpa using this
  refine ⟨?_, ?_, ?_, ?_⟩
  · rw [static_scrape_eq cfg soup now csel v rest hsel,
      static_scrape_eq { cfg with selectors := (csel, v') :: rest } soup now csel v' rest rfl]
  · rw [dynamic_scrape_eq cfg soup now csel v rest hsel,
      dynamic_scrape_eq { cfg with selectors := (csel, v') :: rest } soup now csel v' rest rfl]
  · refine ⟨_, static_scrape_eq cfg soup now csel v rest hsel, by simp, ?_⟩
    intro r hr
    obtain ⟨c, _, rfl⟩ := List.mem_map.mp hr
    refine lookup_eq_none_of_forall csel _ ?_
    intro q hq
    obtain ⟨p, hp, rfl⟩ := List.mem_map.mp hq
    exact hkeys p hp
  · refine ⟨_, dynamic_scrape_eq cfg soup now csel v rest hsel, by simp, ?_⟩
    intro r hr
    obtain ⟨c, _, rfl⟩ := List.mem_map.mp hr
    refine lookup_eq_none_of_forall csel _ ?_
    intro q hq
    obtain ⟨p, hp, rfl⟩ := List.mem_map.mp hq
    exact hkeys p hp

/-- Claim C10, witness: on the concrete page, rewriting the first
entry's selector *value* to an arbitrary other string leaves the static
scrape output unchanged — only the key `article` is consulted. -/
theorem C10_container_selector_is_first_key_witness :
    StaticScraper.scrape
        { cfgNews with selectors := ("article", "OTHER")
            :: [("title", "h2.title"), ("link", "a.read-more")] } soupEx "T"
      = StaticScraper.scrape cfgNews soupEx "T" :=
  (C10_container_selector_is_first_key cfgNews soupEx "T" "article"
      "article.news-item" "OTHER"
      [("title", "h2.title"), ("link", "a.read-more")] rfl).1

/-- Claim C9: a dispatch of a registered job never raises out of
`_run_job` — the only escaping exception of the dispatch body would be
the `KeyError` of the `self.jobs[job_name]` lookup, impossible for a
registered name; a run whose retries are exhausted is caught by the
`except Exception` boundary and logged with its error, as is an export
failure (when no write is attempted, the run just completes); and
`run_job_now` never produces an escaped `KeyError` for any name, so the
scheduler loop survives every failing run. -/
theorem C9_dispatch_boundary (s : WebScraperScheduler) (job_name : String)
    (config : ScrapeConfig) (scrapeAt : Nat → Except String (List Record))
    (timestamp : String) (sink : Except String Unit)
    (hreg : s.jobs.lookup job_name = some config) :
    (s.run_job job_name scrapeAt timestamp sink ≠ .keyError)
    ∧ (∀ e, (retry_scrape scrapeAt config.max_retries).result = some (.error e) →
        s.run_job job_name scrapeAt timestamp sink = .caught e)
    ∧ (∀ e data,
        (retry_scrape scrapeAt config.max_retries).result = some (.ok data) →
        sink = .error e →
        s.run_job job_name scrapeAt timestamp sink = .caught e
          ∨ s.run_job job_name scrapeAt timestamp sink = .completed [] [])
    ∧ (∀ name : String,
        s.run_job_now name scrapeAt timestamp sink ≠ .ran .keyError) := by
  have hrun : ∀ (nm : String) (c' : ScrapeConfig), s.jobs.lookup nm = some c' →
      s.run_job nm scrapeAt timestamp sink ≠ .keyError := by
    intro nm c' hl
    unfold WebScraperScheduler.run_job
    rw [hl]
    dsimp only
    cases hres : (retry_scrape scrapeAt c'.max_retries).result with
    | none =>
      dsimp only
      cases sink <;> split_ifs <;> simp
    | some res =>
      cases res with
      | error e => simp
      | ok data =>
        dsimp only
        cases sink <;> split_ifs <;> simp
  refine ⟨hrun job_name config hreg, ?_, ?_, ?_⟩
  · intro e hres
    unfold WebScraperScheduler.run_job
    rw [hreg]
    dsimp only
    rw [hres]
  · intro e data hres hsink
    unfold WebScraperScheduler.run_job
    rw [hreg]
    dsimp only
    rw [hres, hsink]
    dsimp only
    split_ifs <;> simp
  · intro name
    unfold WebScraperScheduler.run_job_now
    cases hl : s.jobs.lookup name with
    | none => simp
    | some c' =>
      simp only [Option.isSome_some, if_true]
      intro hra
      exact hrun name c' hl (RunNowOutcome.ran.inj hra)

/-- Claim C9, witness: the news job dispatched with an always-failing
scrape oracle is caught at the boundary with the final attempt's error. -/
theorem C9_dispatch_boundary_witness :
    schedNews.run_job "news" alwaysFailRun "T" (.ok ()) = .caught "down 2" :=
  (C9_dispatch_boundary schedNews "news" cfgNews alwaysFailRun "T" (.ok ()) rfl).2.1
    "down 2" (by decide)
